import Mathlib

/-
Shallow embedding of src/python/triqs/operators/util/U_matrix.py
("Functions to construct Coulomb tensors").

Modelling conventions:
* Python floats are modelled by real numbers (exact arithmetic); `math.sqrt`
  is `Real.sqrt`, complex numbers are `ℂ`.
* Python exceptions are modelled by `Except PyErr`: a call that raises maps
  to `.error`, a call that returns maps to `.ok`.
* numpy arrays are modelled as total functions from (0-based) indices, equal
  to 0 outside the initialised range, exactly as `np.zeros` + assignments
  produce them.  Shape information that numpy carries implicitly
  (`len(U_4index)`, the size (2l+1) used by `np.einsum`) is passed as an
  explicit argument.
* `scipy.special.factorial` returns 0.0 on negative integer input, which
  `fact` reproduces.
-/

noncomputable section

namespace UMatrix

/-- Python exceptions raised by the module (only the kinds that can occur). -/
inductive PyErr where
  | valueError (msg : String)
  | typeError (msg : String)
  | indexError (msg : String)
deriving DecidableEq

/-- A numpy rank-4 array with complex entries, as a function of 0-based indices. -/
abbrev Tensor4 := ℕ → ℕ → ℕ → ℕ → ℂ

/-- A numpy rank-4 array with real entries. -/
abbrev Tensor4R := ℕ → ℕ → ℕ → ℕ → ℝ

/-- A numpy matrix with real entries. -/
abbrev Mat2 := ℕ → ℕ → ℝ

/-- A numpy matrix with complex entries. -/
abbrev CMat2 := ℕ → ℕ → ℂ

/-- Model of `from scipy.special import factorial as fact`: factorial of an integer,
0.0 on negative input (scipy's behaviour for negative integers). -/
def fact (n : ℤ) : ℝ := if n < 0 then 0 else (n.toNat.factorial : ℝ)

/-- The selection-rule test of `three_j_symbol` (source lines 573-578):
the disjunction guarding the early `return .0`. -/
def three_j_selection_violated (j1 m1 j2 m2 j3 m3 : ℤ) : Prop :=
  m1 + m2 + m3 ≠ 0 ∨
  m1 < -j1 ∨ m1 > j1 ∨
  m2 < -j2 ∨ m2 > j2 ∨
  m3 < -j3 ∨ m3 > j3 ∨
  j3 > j1 + j2 ∨
  j3 < |j1 - j2|

instance three_j_selection_violated.decidable (j1 m1 j2 m2 j3 m3 : ℤ) :
    Decidable (three_j_selection_violated j1 m1 j2 m2 j3 m3) := by
  unfold three_j_selection_violated; infer_instance

/-- Source line 585: `t_min = max(j2-j3-m1, j1-j3+m2, 0)`. -/
def three_j_t_min (j1 j2 j3 m1 m2 : ℤ) : ℤ :=
  max (max (j2 - j3 - m1) (j1 - j3 + m2)) 0

/-- Source line 586: `t_max = min(j1-m1, j2+m2, j1+j2-j3)`. -/
def three_j_t_max (j1 j2 j3 m1 m2 : ℤ) : ℤ :=
  min (min (j1 - m1) (j2 + m2)) (j1 + j2 - j3)

/-- Model of `three_j_symbol(jm1, jm2, jm3)` (source lines 544-593): the Wigner 3j
symbol via the Racah formula.  Python's `x % 2` on ints agrees with `Int.emod`
for the modulus 2, and `range(t_min, t_max+1)` is `Finset.Icc t_min t_max`. -/
def three_j_symbol (jm1 jm2 jm3 : ℤ × ℤ) : ℝ :=
  match jm1, jm2, jm3 with
  | (j1, m1), (j2, m2), (j3, m3) =>
    if three_j_selection_violated j1 m1 j2 m2 j3 m3 then 0
    else
      (if (j1 - j2 - m3) % 2 ≠ 0 then (-1 : ℝ) else 1)
      * Real.sqrt (fact (j1 + j2 - j3) * fact (j1 - j2 + j3) * fact (-j1 + j2 + j3)
          / fact (j1 + j2 + j3 + 1))
      * Real.sqrt (fact (j1 - m1) * fact (j1 + m1) * fact (j2 - m2) * fact (j2 + m2)
          * fact (j3 - m3) * fact (j3 + m3))
      * ∑ t ∈ Finset.Icc (three_j_t_min j1 j2 j3 m1 m2) (three_j_t_max j1 j2 j3 m1 m2),
          (if t % 2 ≠ 0 then (-1 : ℝ) else 1) /
            (fact t * fact (j3 - j2 + m1 + t) * fact (j3 - j1 - m2 + t)
              * fact (j1 + j2 - j3 - t) * fact (j1 - m1 - t) * fact (j2 + m2 - t))

/-- Model of `clebsch_gordan(jm1, jm2, jm3)` (source lines 595-622).  The sign factor
reproduces the Python expression `(-1 if jm1[0]-jm2[0]+jm3[1] % 2 else 1)`
bit-for-bit: `%` binds tighter than `+`, so the tested quantity is
`j1 - j2 + (m3 % 2)`, and any nonzero value is truthy. -/
def clebsch_gordan (jm1 jm2 jm3 : ℤ × ℤ) : ℝ :=
  (Real.sqrt ((2 * jm3.1 + 1 : ℤ) : ℝ)
      * (if jm1.1 - jm2.1 + jm3.2 % 2 ≠ 0 then (-1 : ℝ) else 1))
    * three_j_symbol jm1 jm2 (jm3.1, -jm3.2)

/-- Model of `angular_matrix_element(l, k, m1, m2, m3, m4)` (source lines 503-542):
`range(-k, k+1)` is `Finset.Icc (-k) k`, and `(-1.0 if (m1+q+m2) % 2 else 1.0)`
is `-1` exactly when `(m1+q+m2) % 2 ≠ 0`. -/
def angular_matrix_element (l k m1 m2 m3 m4 : ℤ) : ℝ :=
  (∑ q ∈ Finset.Icc (-k) k,
      three_j_symbol (l, -m1) (k, q) (l, m3) * three_j_symbol (l, -m2) (k, -q) (l, m4)
        * (if (m1 + q + m2) % 2 ≠ 0 then (-1 : ℝ) else 1))
    * (((2 * l + 1 : ℤ) : ℝ) ^ 2 * three_j_symbol (l, 0) (k, 0) (l, 0) ^ 2)

/-- Model of `U_J_to_radial_integrals(l, U_int, J_hund)` (source lines 433-468):
the list `[F0, F2, F4, ..]` produced by the l-specific closed forms, or the
`ValueError` for unsupported `l`. -/
def U_J_to_radial_integrals (l : ℤ) (U_int J_hund : ℝ) : Except PyErr (List ℝ) :=
  if l = 1 then
    .ok [U_int, 5 * J_hund]
  else if l = 2 then
    .ok [U_int, J_hund * 14 / (1 + 0.63), 0.630 * (J_hund * 14 / (1 + 0.63))]
  else if l = 3 then
    .ok [U_int,
         6435 * J_hund / (286 + 195 * 451 / 675 + 250 * 1001 / 2025),
         451 * (6435 * J_hund / (286 + 195 * 451 / 675 + 250 * 1001 / 2025)) / 675,
         1001 * (6435 * J_hund / (286 + 195 * 451 / 675 + 250 * 1001 / 2025)) / 2025]
  else
    .error (.valueError "U_J_to_radial_integrals: implemented only for l=1,2,3")

/-- Model of `radial_integrals_to_U_J(l, F)` (source lines 470-500): reads `F[0]` and
`F[1]` in the supported branches (an out-of-range access would be a Python
`IndexError`), or raises for unsupported `l`. -/
def radial_integrals_to_U_J (l : ℤ) (F : List ℝ) : Except PyErr (ℝ × ℝ) :=
  if l = 1 then
    match F[0]?, F[1]? with
    | some f0, some f1 => .ok (f0, f1 / 5)
    | _, _ => .error (.indexError "index out of range")
  else if l = 2 then
    match F[0]?, F[1]? with
    | some f0, some f1 => .ok (f0, f1 * (1 + 0.63) / 14)
    | _, _ => .error (.indexError "index out of range")
  else if l = 3 then
    match F[0]?, F[1]? with
    | some f0, some f1 => .ok (f0, f1 * (286 + 195 * 451 / 675 + 250 * 1001 / 2025) / 6435)
    | _, _ => .error (.indexError "index out of range")
  else
    .error (.valueError "radial_integrals_to_U_J: implemented only for l=1,2,3")

/-- The value `1/sqrt(2)` as a complex number, as used in `spherical_to_cubic`. -/
def invsqrt2C : ℂ := ((1 / Real.sqrt 2 : ℝ) : ℂ)

/-- The value `1j/sqrt(2)` as a complex number, as used in `spherical_to_cubic`. -/
def isqrt2C : ℂ := Complex.I * invsqrt2C

/-- Model of `spherical_to_cubic(l, convention)` (source lines 327-401): the hard-coded
spherical-to-cubic transformation matrices.  `T` starts as `np.zeros` and only
the listed entries are assigned; the local `cubic_names` assignments in the
source are dead stores and are omitted.  For `l = 0` no entry is assigned, so
the returned 1x1 matrix is zero, exactly as in the source. -/
def spherical_to_cubic (l : ℤ) (convention : String) : Except PyErr CMat2 :=
  if ¬ (convention = "wien2k" ∨ convention = "wannier90" ∨ convention = "triqs" ∨
        convention = "vasp" ∨ convention = "qe") then
    .error (.valueError ("Unknown convention: " ++ convention))
  else if (convention = "wien2k" ∨ convention = "wannier90" ∨ convention = "qe") ∧ l ≠ 2 then
    .error (.valueError
      "spherical_to_cubic: [wien2k, wannier90, qe] convention implemented only for l=2")
  else if l = 0 then
    .ok (fun _ _ => 0)
  else if l = 1 then
    .ok (fun i j =>
      if i = 0 ∧ j = 0 then invsqrt2C
      else if i = 0 ∧ j = 2 then -invsqrt2C
      else if i = 1 ∧ j = 0 then isqrt2C
      else if i = 1 ∧ j = 2 then isqrt2C
      else if i = 2 ∧ j = 1 then 1
      else 0)
  else if l = 2 then
    if convention = "wien2k" then
      .ok (fun i j =>
        if i = 0 ∧ j = 2 then 1
        else if i = 1 ∧ j = 0 then invsqrt2C
        else if i = 1 ∧ j = 4 then invsqrt2C
        else if i = 2 ∧ j = 0 then -invsqrt2C
        else if i = 2 ∧ j = 4 then invsqrt2C
        else if i = 3 ∧ j = 1 then invsqrt2C
        else if i = 3 ∧ j = 3 then -invsqrt2C
        else if i = 4 ∧ j = 1 then invsqrt2C
        else if i = 4 ∧ j = 3 then invsqrt2C
        else 0)
    else if convention = "wannier90" ∨ convention = "qe" then
      .ok (fun i j =>
        if i = 0 ∧ j = 2 then 1
        else if i = 1 ∧ j = 1 then invsqrt2C
        else if i = 1 ∧ j = 3 then -invsqrt2C
        else if i = 2 ∧ j = 1 then isqrt2C
        else if i = 2 ∧ j = 3 then isqrt2C
        else if i = 3 ∧ j = 0 then invsqrt2C
        else if i = 3 ∧ j = 4 then invsqrt2C
        else if i = 4 ∧ j = 0 then isqrt2C
        else if i = 4 ∧ j = 4 then -isqrt2C
        else 0)
    else
      .ok (fun i j =>
        if i = 0 ∧ j = 0 then isqrt2C
        else if i = 0 ∧ j = 4 then -isqrt2C
        else if i = 1 ∧ j = 1 then isqrt2C
        else if i = 1 ∧ j = 3 then isqrt2C
        else if i = 2 ∧ j = 2 then 1
        else if i = 3 ∧ j = 1 then invsqrt2C
        else if i = 3 ∧ j = 3 then -invsqrt2C
        else if i = 4 ∧ j = 0 then invsqrt2C
        else if i = 4 ∧ j = 4 then invsqrt2C
        else 0)
  else if l = 3 then
    .ok (fun i j =>
      if i = 0 ∧ j = 0 then invsqrt2C
      else if i = 0 ∧ j = 6 then -invsqrt2C
      else if i = 1 ∧ j = 1 then invsqrt2C
      else if i = 1 ∧ j = 5 then invsqrt2C
      else if i = 2 ∧ j = 2 then invsqrt2C
      else if i = 2 ∧ j = 4 then -invsqrt2C
      else if i = 3 ∧ j = 3 then 1
      else if i = 4 ∧ j = 2 then isqrt2C
      else if i = 4 ∧ j = 4 then isqrt2C
      else if i = 5 ∧ j = 1 then isqrt2C
      else if i = 5 ∧ j = 5 then -isqrt2C
      else if i = 6 ∧ j = 0 then isqrt2C
      else if i = 6 ∧ j = 6 then isqrt2C
      else 0)
  else .error (.valueError "spherical_to_cubic: implemented only for l=0,1,2,3")

/-- Model of `transform_U_matrix(U_matrix, T)` (source lines 303-325):
`np.einsum("ij,kl,jlmo,mn,op", conj(T), conj(T), U, T^t, T^t)`, whose free
indices are `i,k,n,p`:
`new_U[i,k,n,p] = sum over j,l,m,o of conj(T[i,j]) conj(T[k,l]) U[j,l,m,o] T[n,m] T[p,o]`.
The contraction range `d` (the matrix dimension, implicit in numpy) is passed
explicitly. -/
def transform_U_matrix (d : ℕ) (U_matrix : Tensor4) (T : CMat2) : Tensor4 :=
  fun i k n p =>
    ∑ j ∈ Finset.range d, ∑ l ∈ Finset.range d, ∑ m ∈ Finset.range d, ∑ o ∈ Finset.range d,
      (starRingEnd ℂ) (T i j) * (starRingEnd ℂ) (T k l) * U_matrix j l m o * T n m * T p o

/-- The spherical-basis tensor assembled by `U_matrix_slater` (source lines
98-104): `U_matrix[m1+l, m2+l, m3+l, m4+l] += F_n * angular_matrix_element(l, 2n, m1..m4)`
over `m_i` in `range(-l, l+1)`, starting from `np.zeros((2l+1,)*4)`.  Array
position `(a,b,c,d)` therefore holds the sum over `n` for `m_i` = index - `l`,
and is 0 outside the array bounds. -/
def slater_U_spherical (l : ℤ) (F : List ℝ) : Tensor4 :=
  fun a b c d =>
    if (a : ℤ) ≤ 2 * l ∧ (b : ℤ) ≤ 2 * l ∧ (c : ℤ) ≤ 2 * l ∧ (d : ℤ) ≤ 2 * l then
      ((∑ n ∈ Finset.range F.length,
          F.getD n 0 *
            angular_matrix_element l (2 * n) ((a : ℤ) - l) ((b : ℤ) - l) ((c : ℤ) - l)
              ((d : ℤ) - l) : ℝ) : ℂ)
    else 0

/-- The input-resolution phase of `U_matrix_slater` (source lines 84-93 plus
the iteration over `radial_integrals` at line 101): produces the radial
integral list actually used, or the exception the source raises.
* all three of `radial_integrals`, `U_int`, `J_hund` absent: the
  missing-input `ValueError` (line 86);
* `radial_integrals` absent but both `U_int` and `J_hund` given: the list is
  derived by `U_J_to_radial_integrals` (line 88; the subsequent length and
  consistency checks on the derived list are vacuous);
* `radial_integrals` absent and exactly one of `U_int`, `J_hund` given: no
  branch assigns `radial_integrals`, so `enumerate(None)` at line 101 raises a
  `TypeError`;
* `radial_integrals` given together with both `U_int` and `J_hund`: the
  length check may raise (line 91); `U_J_to_radial_integrals` is then
  evaluated for the consistency warning (line 92) and may itself raise; the
  warning itself has no semantic effect and the explicit list is used;
* `radial_integrals` given, `U_int` and `J_hund` not both given: the explicit
  list is used. -/
def U_matrix_slater_radial (l : ℤ) (radial_integrals : Option (List ℝ))
    (U_int J_hund : Option ℝ) : Except PyErr (List ℝ) :=
  match radial_integrals, U_int, J_hund with
  | none, none, none =>
    .error (.valueError "U_matrix: provide either the radial_integrals or U_int and J_hund.")
  | none, some U, some J => U_J_to_radial_integrals l U J
  | none, some _, none => .error (.typeError "NoneType object is not iterable")
  | none, none, some _ => .error (.typeError "NoneType object is not iterable")
  | some F, some U, some J =>
    if (F.length : ℤ) - 1 ≠ l then
      .error (.valueError "U_matrix: inconsistency in l and number of radial_integrals provided.")
    else (U_J_to_radial_integrals l U J).map (fun _ => F)
  | some F, _, _ => .ok F

/-- Model of `U_matrix_slater(l, radial_integrals, U_int, J_hund, basis, T)` (source
lines 29-112).  After input resolution the spherical tensor is built; then
`basis == "cubic"` replaces `T` by `spherical_to_cubic(l)` (default
convention `"triqs"`), `basis == "other"` requires a caller-supplied `T`, and
any other basis string leaves `T` as passed; finally the transform is applied
whenever `T` is not `None` (line 110). -/
def U_matrix_slater (l : ℤ) (radial_integrals : Option (List ℝ)) (U_int J_hund : Option ℝ)
    (basis : String) (T : Option CMat2) : Except PyErr Tensor4 :=
  match U_matrix_slater_radial l radial_integrals U_int J_hund with
  | .error e => .error e
  | .ok F =>
    let Um := slater_U_spherical l F
    if basis = "cubic" then
      match spherical_to_cubic l "triqs" with
      | .error e => .error e
      | .ok Tc => .ok (transform_U_matrix (2 * l + 1).toNat Um Tc)
    else if basis = "other" then
      match T with
      | none => .error (.valueError "U_matrix: provide T for other bases.")
      | some Tm => .ok (transform_U_matrix (2 * l + 1).toNat Um Tm)
    else
      match T with
      | none => .ok Um
      | some Tm => .ok (transform_U_matrix (2 * l + 1).toNat Um Tm)

/-- Model of `reduce_4index_to_2index(U_4index)` (source lines 115-142):
`U[m,mp] = U4[m,mp,m,mp].real - U4[m,mp,mp,m].real` and
`Uprime[m,mp] = U4[m,mp,m,mp].real` for `m, mp` in `range(size)`, starting
from `np.zeros((size,size))`.  `size = len(U_4index)` is passed explicitly. -/
def reduce_4index_to_2index (size : ℕ) (U_4index : Tensor4) : Mat2 × Mat2 :=
  (fun m mp =>
      if m < size ∧ mp < size then
        (U_4index m mp m mp).re - (U_4index m mp mp m).re
      else 0,
   fun m mp =>
      if m < size ∧ mp < size then (U_4index m mp m mp).re else 0)

/-- Model of `U_matrix_kanamori(n_orb, U_int, J_hund, Up_int, full_Uijkl, Jc_hund)`
(source lines 144-231).  Returns the two-index pair (`full_Uijkl=False`) or
the four-index tensor (`full_Uijkl=True`), with `Up_int` defaulting to
`U_int - 2 J_hund` and `Jc_hund` to `J_hund`; supplying `Jc_hund` without
`full_Uijkl` raises.  The arrays start from `np.zeros`, so entries outside
`range(n_orb)` and unassigned patterns are 0; in particular the two-index
`U[m,m]` is never assigned and stays 0. -/
def U_matrix_kanamori (n_orb : ℕ) (U_int J_hund : ℝ) (Up_int : Option ℝ)
    (full_Uijkl : Bool) (Jc_hund : Option ℝ) :
    Except PyErr ((Mat2 × Mat2) ⊕ Tensor4R) :=
  if Jc_hund.isSome && !full_Uijkl then
    .error (.valueError "Jc_hund can only be specified if the full four index tensor is returned")
  else
    let Up := Up_int.getD (U_int - 2 * J_hund)
    let Jc := Jc_hund.getD J_hund
    if !full_Uijkl then
      .ok (.inl
        (fun m mp => if m < n_orb ∧ mp < n_orb ∧ m ≠ mp then Up - J_hund else 0,
         fun m mp =>
           if m < n_orb ∧ mp < n_orb then (if m = mp then U_int else Up) else 0))
    else
      .ok (.inr
        (fun i j k l =>
          if i < n_orb ∧ j < n_orb ∧ k < n_orb ∧ l < n_orb then
            if i = j ∧ j = k ∧ k = l then U_int
            else if i = k ∧ j = l then Up
            else if i = l ∧ j = k then J_hund
            else if i = j ∧ k = l then Jc
            else 0
          else 0))

/-- Model of `cubic_names(l)` (source lines 403-431).  The argument is an int or a
string; the `l == 0 or l == 's'` branch returns `("s")`, which in Python is a
parenthesized bare string (modelled `Sum.inl`), while every other supported
branch returns a genuine tuple of strings (modelled `Sum.inr`). -/
def cubic_names (l : ℤ ⊕ String) : Except PyErr (String ⊕ List String) :=
  if l = Sum.inl 0 ∨ l = Sum.inr "s" then .ok (.inl "s")
  else if l = Sum.inl 1 ∨ l = Sum.inr "p" then .ok (.inr ["x", "y", "z"])
  else if l = Sum.inl 2 ∨ l = Sum.inr "d" then
    .ok (.inr ["xy", "yz", "z^2", "xz", "x^2-y^2"])
  else if l = Sum.inr "t2g" then .ok (.inr ["xy", "yz", "xz"])
  else if l = Sum.inr "eg" then .ok (.inr ["z^2", "x^2-y^2"])
  else if l = Sum.inl 3 ∨ l = Sum.inr "f" then
    .ok (.inr ["x(x^2-3y^2)", "z(x^2-y^2)", "xz^2", "z^3", "yz^2", "xyz", "y(3x^2-y^2)"])
  else .error (.valueError "cubic_names: implemented only for l=0,1,2,3")

/-! ### Theorems about the embedded program -/

/-- C10: the call `cubic_names(0)` and the call `cubic_names('s')` return the bare string `"s"`
(the parenthesized string `("s")`, modelled `Sum.inl`), while every other
supported argument — `l` in `1,2,3` and the labels `'p','d','f','t2g','eg'` —
returns a genuine tuple of name strings (modelled `Sum.inr`). -/
theorem cubic_names_bare_string_for_s :
    cubic_names (Sum.inl 0) = .ok (.inl "s") ∧
    cubic_names (Sum.inr "s") = .ok (.inl "s") ∧
    cubic_names (Sum.inl 1) = .ok (.inr ["x", "y", "z"]) ∧
    cubic_names (Sum.inr "p") = .ok (.inr ["x", "y", "z"]) ∧
    cubic_names (Sum.inl 2) = .ok (.inr ["xy", "yz", "z^2", "xz", "x^2-y^2"]) ∧
    cubic_names (Sum.inr "d") = .ok (.inr ["xy", "yz", "z^2", "xz", "x^2-y^2"]) ∧
    cubic_names (Sum.inl 3) =
      .ok (.inr ["x(x^2-3y^2)", "z(x^2-y^2)", "xz^2", "z^3", "yz^2", "xyz", "y(3x^2-y^2)"]) ∧
    cubic_names (Sum.inr "f") =
      .ok (.inr ["x(x^2-3y^2)", "z(x^2-y^2)", "xz^2", "z^3", "yz^2", "xyz", "y(3x^2-y^2)"]) ∧
    cubic_names (Sum.inr "t2g") = .ok (.inr ["xy", "yz", "xz"]) ∧
    cubic_names (Sum.inr "eg") = .ok (.inr ["z^2", "x^2-y^2"]) := by
  refine ⟨?_, ?_, ?_, ?_, ?_, ?_, ?_, ?_, ?_, ?_⟩ <;> rfl

/-- C6: the function `three_j_symbol` returns exactly 0 (and, being a total function in
this model, raises nothing) whenever `m1+m2+m3` is nonzero, some `|m_i| > j_i`,
or the triangle inequality `|j1-j2| ≤ j3 ≤ j1+j2` fails. -/
theorem three_j_symbol_selection_rules_zero (j1 m1 j2 m2 j3 m3 : ℤ)
    (h : m1 + m2 + m3 ≠ 0 ∨ |m1| > j1 ∨ |m2| > j2 ∨ |m3| > j3 ∨
      j3 > j1 + j2 ∨ j3 < |j1 - j2|) :
    three_j_symbol (j1, m1) (j2, m2) (j3, m3) = 0 := by
  have hv : three_j_selection_violated j1 m1 j2 m2 j3 m3 := by
    unfold three_j_selection_violated
    simp only [lt_abs, abs_lt, gt_iff_lt, lt_neg, neg_lt] at h ⊢
    omega
  simp [three_j_symbol, hv]

/-- Witness for C6 at the concrete input `(1,1),(1,1),(1,1)` (the m-sum is 3). -/
theorem three_j_symbol_selection_rules_zero_witness :
    ((1 : ℤ) + 1 + 1 ≠ 0) ∧ three_j_symbol (1, 1) (1, 1) (1, 1) = 0 :=
  ⟨by decide, three_j_symbol_selection_rules_zero 1 1 1 1 1 1 (Or.inl (by decide))⟩

/-- C9: when the selection rules pass, every argument of the six factorials in
the alternating t-sum of `three_j_symbol` is non-negative throughout the range
`[t_min, t_max]`, so `fact` is never evaluated at a negative integer; and when
`t_min > t_max` the range is empty and the symbol evaluates to 0. -/
theorem three_j_symbol_t_sum_safety (j1 m1 j2 m2 j3 m3 : ℤ) :
    (¬ three_j_selection_violated j1 m1 j2 m2 j3 m3 →
      ∀ t ∈ Finset.Icc (three_j_t_min j1 j2 j3 m1 m2) (three_j_t_max j1 j2 j3 m1 m2),
        0 ≤ t ∧ 0 ≤ j3 - j2 + m1 + t ∧ 0 ≤ j3 - j1 - m2 + t ∧
        0 ≤ j1 + j2 - j3 - t ∧ 0 ≤ j1 - m1 - t ∧ 0 ≤ j2 + m2 - t) ∧
    (three_j_t_min j1 j2 j3 m1 m2 > three_j_t_max j1 j2 j3 m1 m2 →
      Finset.Icc (three_j_t_min j1 j2 j3 m1 m2) (three_j_t_max j1 j2 j3 m1 m2) = ∅ ∧
      three_j_symbol (j1, m1) (j2, m2) (j3, m3) = 0) := by
  constructor
  · intro _ t ht
    rw [Finset.mem_Icc] at ht
    simp only [three_j_t_min, three_j_t_max, max_le_iff, le_min_iff] at ht
    omega
  · intro hgt
    refine ⟨Finset.Icc_eq_empty (not_le.mpr hgt), ?_⟩
    by_cases hv : three_j_selection_violated j1 m1 j2 m2 j3 m3
    · simp [three_j_symbol, hv]
    · exfalso
      unfold three_j_selection_violated at hv
      simp only [lt_abs, gt_iff_lt, lt_neg, neg_lt, not_or, not_lt, not_ne_iff] at hv
      simp only [three_j_t_min, three_j_t_max, gt_iff_lt, lt_min_iff, max_lt_iff] at hgt
      omega

/-- Witness for C9: the non-negativity part at the valid triple
`(1,0),(1,0),(2,0)` (whose t-range is `[0,0]`), and the empty-range part at
`(0,0),(0,0),(5,0)` (where `t_min = 0 > t_max = -5`). -/
theorem three_j_symbol_t_sum_safety_witness :
    ((0 : ℤ) ≤ 0 ∧ (0 : ℤ) ≤ 2 - 1 + 0 + 0 ∧ (0 : ℤ) ≤ 2 - 1 - 0 + 0 ∧
      (0 : ℤ) ≤ 1 + 1 - 2 - 0 ∧ (0 : ℤ) ≤ 1 - 0 - 0 ∧ (0 : ℤ) ≤ 1 + 0 - 0) ∧
    three_j_symbol (0, 0) (0, 0) (5, 0) = 0 :=
  ⟨(three_j_symbol_t_sum_safety 1 0 1 0 2 0).1 (by decide) 0 (by decide),
   ((three_j_symbol_t_sum_safety 0 0 0 0 5 0).2 (by decide)).2⟩

/-- C4: for l in 1,2,3 and any `U_int`, `J_hund`, converting to radial
integrals and back returns exactly `(U_int, J_hund)` (the arithmetic here is
exact real arithmetic on the source's rational constants). -/
theorem radial_integrals_round_trip (l : ℤ) (U_int J_hund : ℝ)
    (hl : l = 1 ∨ l = 2 ∨ l = 3) :
    ∃ F, U_J_to_radial_integrals l U_int J_hund = .ok F ∧
      radial_integrals_to_U_J l F = .ok (U_int, J_hund) := by
  rcases hl with hl | hl | hl <;> subst hl
  · exact ⟨_, rfl, by norm_num [radial_integrals_to_U_J]⟩
  · exact ⟨_, rfl, by norm_num [radial_integrals_to_U_J]⟩
  · exact ⟨_, rfl, by norm_num [radial_integrals_to_U_J]⟩

/-- Witness for C4 at `l = 2`, `U_int = 4`, `J_hund = 7/10`. -/
theorem radial_integrals_round_trip_witness :
    ∃ F, U_J_to_radial_integrals 2 (4 : ℝ) (7 / 10) = .ok F ∧
      radial_integrals_to_U_J 2 F = .ok ((4 : ℝ), 7 / 10) :=
  radial_integrals_round_trip 2 4 (7 / 10) (Or.inr (Or.inl rfl))

/-- C8: for every n_orb and real `U_int`, `J_hund`, the two-index Kanamori
matrices with defaulted `Up_int = U_int - 2*J_hund` satisfy `U[m,m] = 0`,
`Uprime[m,m] = U_int`, and for `m ≠ mp`: `U[m,mp] = Up_int - J_hund` and
`Uprime[m,mp] = Up_int`. -/
theorem U_matrix_kanamori_two_index_entries (n_orb : ℕ) (U_int J_hund : ℝ) :
    ∃ U Uprime,
      U_matrix_kanamori n_orb U_int J_hund none false none = .ok (.inl (U, Uprime)) ∧
      (∀ m, m < n_orb → U m m = 0 ∧ Uprime m m = U_int) ∧
      (∀ m mp, m < n_orb → mp < n_orb → m ≠ mp →
        U m mp = (U_int - 2 * J_hund) - J_hund ∧ Uprime m mp = U_int - 2 * J_hund) := by
  refine ⟨_, _, rfl, ?_, ?_⟩
  · intro m hm
    constructor
    · simp
    · simp [hm]
  · intro m mp hm hmp hne
    constructor
    · simp [hm, hmp, hne]
    · simp [hm, hmp, hne]

/-- Witness for C8 at `n_orb = 2`, `U_int = 4`, `J_hund = 7/10`. -/
theorem U_matrix_kanamori_two_index_entries_witness :
    ∃ U Uprime,
      U_matrix_kanamori 2 (4 : ℝ) (7 / 10) none false none = .ok (.inl (U, Uprime)) ∧
      U 0 0 = 0 ∧ Uprime 0 0 = 4 ∧
      U 0 1 = (4 - 2 * (7 / 10)) - 7 / 10 ∧ Uprime 0 1 = 4 - 2 * (7 / 10) := by
  obtain ⟨U, Uprime, h1, h2, h3⟩ := U_matrix_kanamori_two_index_entries 2 4 (7 / 10)
  exact ⟨U, Uprime, h1, (h2 0 (by norm_num)).1, (h2 0 (by norm_num)).2,
    (h3 0 1 (by norm_num) (by norm_num) (by norm_num)).1,
    (h3 0 1 (by norm_num) (by norm_num) (by norm_num)).2⟩

/-- C7: reducing the four-index Kanamori tensor (default `Up_int`, `Jc_hund`)
with `reduce_4index_to_2index` reproduces exactly the two-index pair returned
by `U_matrix_kanamori` with `full_Uijkl=False`. -/
theorem reduce_4index_recovers_kanamori_two_index (n_orb : ℕ) (U_int J_hund : ℝ) :
    ∃ U4 Upair,
      U_matrix_kanamori n_orb U_int J_hund none true none = .ok (.inr U4) ∧
      U_matrix_kanamori n_orb U_int J_hund none false none = .ok (.inl Upair) ∧
      reduce_4index_to_2index n_orb (fun i j k l => ((U4 i j k l : ℝ) : ℂ)) = Upair := by
  refine ⟨_, _, rfl, rfl, ?_⟩
  refine Prod.ext ?_ ?_ <;> funext m mp <;>
    by_cases hm : m < n_orb <;> by_cases hmp : mp < n_orb <;> by_cases he : m = mp
  · subst he; simp [reduce_4index_to_2index, hm]
  · simp [reduce_4index_to_2index, hm, hmp, he, Ne.symm he]
  all_goals simp [reduce_4index_to_2index, hm, hmp]
  · subst he; simp [hm]
  · simp [hm, hmp, he, Ne.symm he]

/-- Exchange symmetry of the angular matrix element: the q-sum is invariant
under `(m1,m2,m3,m4) ↦ (m2,m1,m4,m3)` after reindexing `q ↦ -q`. -/
lemma angular_matrix_element_swap (l k m1 m2 m3 m4 : ℤ) :
    angular_matrix_element l k m1 m2 m3 m4 = angular_matrix_element l k m2 m1 m4 m3 := by
  unfold angular_matrix_element
  congr 1
  refine Finset.sum_equiv (Equiv.neg ℤ) (fun q => ?_) (fun q _ => ?_)
  · simp only [Equiv.neg_apply, Finset.mem_Icc]
    omega
  · simp only [Equiv.neg_apply, neg_neg]
    have hsig : ((m1 + q + m2) % 2 ≠ 0) ↔ ((m2 + -q + m1) % 2 ≠ 0) := by omega
    rw [if_congr hsig rfl rfl]
    ring

/-- The spherical Slater tensor inherits the exchange symmetry entrywise. -/
lemma slater_U_spherical_swap (l : ℤ) (F : List ℝ) (a b c d : ℕ) :
    slater_U_spherical l F a b c d = slater_U_spherical l F b a d c := by
  unfold slater_U_spherical
  by_cases h : (a : ℤ) ≤ 2 * l ∧ (b : ℤ) ≤ 2 * l ∧ (c : ℤ) ≤ 2 * l ∧ (d : ℤ) ≤ 2 * l
  · rw [if_pos h, if_pos (by tauto)]
    exact congrArg (fun r : ℝ => (r : ℂ))
      (Finset.sum_congr rfl fun n _ => by rw [angular_matrix_element_swap])
  · rw [if_neg h, if_neg (by tauto)]

/-- A successful spherical-basis call of `U_matrix_slater` returns the tensor
`slater_U_spherical l F` for some radial integral list `F`. -/
lemma U_matrix_slater_spherical_ok (l : ℤ) (rad : Option (List ℝ))
    (U_int J_hund : Option ℝ) (Um : Tensor4)
    (h : U_matrix_slater l rad U_int J_hund "spherical" none = .ok Um) :
    ∃ F, Um = slater_U_spherical l F := by
  unfold U_matrix_slater at h
  cases hr : U_matrix_slater_radial l rad U_int J_hund with
  | error e => rw [hr] at h; exact absurd h (by simp)
  | ok F =>
    rw [hr] at h
    simp only [show ("spherical" : String) ≠ "cubic" by decide,
      show ("spherical" : String) ≠ "other" by decide, if_neg, if_false,
      reduceIte] at h
    exact ⟨F, (Except.ok.injEq _ _ ▸ h).symm⟩

/-- C5: the identity `angular_matrix_element(l,k,m1,m2,m3,m4) = angular_matrix_element(l,k,m2,m1,m4,m3)` holds
for all integer arguments, and consequently any spherical-basis tensor
returned by `U_matrix_slater` satisfies `U[a,b,c,d] = U[b,a,d,c]` at every
index tuple. -/
theorem angular_element_and_slater_exchange_symmetry :
    (∀ l k m1 m2 m3 m4 : ℤ,
      angular_matrix_element l k m1 m2 m3 m4 = angular_matrix_element l k m2 m1 m4 m3) ∧
    (∀ (l : ℤ) (rad : Option (List ℝ)) (U_int J_hund : Option ℝ) (Um : Tensor4),
      U_matrix_slater l rad U_int J_hund "spherical" none = .ok Um →
      ∀ a b c d, Um a b c d = Um b a d c) := by
  refine ⟨angular_matrix_element_swap, ?_⟩
  intro l rad U_int J_hund Um h a b c d
  obtain ⟨F, rfl⟩ := U_matrix_slater_spherical_ok l rad U_int J_hund Um h
  exact slater_U_spherical_swap l F a b c d

/-- Witness for C5: a concrete spherical-basis call that succeeds, and the
exchange symmetry of its tensor at the index tuple `(2,0,1,1)`. -/
theorem angular_element_and_slater_exchange_symmetry_witness :
    ∃ Um, U_matrix_slater 1 (some [1, 1]) none none "spherical" none = .ok Um ∧
      Um 2 0 1 1 = Um 0 2 1 1 := by
  have h : U_matrix_slater 1 (some [1, 1]) none none "spherical" none =
      .ok (slater_U_spherical 1 [1, 1]) := rfl
  exact ⟨_, h,
    angular_element_and_slater_exchange_symmetry.2 1 (some [1, 1]) none none _ h 2 0 1 1⟩

/-- Evaluation of `fact` at a non-negative integer: the ordinary factorial. -/
lemma fact_nat (n : ℕ) : fact (n : ℤ) = (n.factorial : ℝ) := by
  simp [fact]

/-- Exact value of the three-j symbol at `(1,1),(0,0),(1,-1)`: the selection
rules pass, the phase is `+1`, the prefactors are `sqrt(1/3)` and `sqrt(4)`,
and the t-sum is the single term `1/2`, giving `sqrt(1/3)`. -/
lemma three_j_symbol_at_110011m1 :
    three_j_symbol (1, 1) (0, 0) (1, -1) = Real.sqrt (1 / 3) := by
  simp only [three_j_symbol]
  rw [if_neg (by decide)]
  norm_num [three_j_t_min, three_j_t_max, fact, Nat.factorial]
  rw [show (4 : ℝ) = 2 ^ 2 by norm_num, Real.sqrt_sq (by norm_num : (0 : ℝ) ≤ 2)]
  ring

/-- What the code's sign factor actually tests: by Python precedence the
condition in `clebsch_gordan` is `j1 - j2 + (m3 % 2) != 0`, so the sign is
`+1` exactly when `m3` is even and `j1 = j2`, or `m3` is odd and
`j2 = j1 + 1`, and `-1` otherwise. -/
lemma clebsch_gordan_actual_sign (j1 m1 j2 m2 j3 m3 : ℤ) :
    clebsch_gordan (j1, m1) (j2, m2) (j3, m3) =
      Real.sqrt ((2 * j3 + 1 : ℤ) : ℝ)
        * (if (Even m3 ∧ j1 = j2) ∨ (Odd m3 ∧ j2 = j1 + 1) then (1 : ℝ) else -1)
        * three_j_symbol (j1, m1) (j2, m2) (j3, -m3) := by
  simp only [clebsch_gordan]
  have hiff : (j1 - j2 + m3 % 2 ≠ 0) ↔
      ¬ ((Even m3 ∧ j1 = j2) ∨ (Odd m3 ∧ j2 = j1 + 1)) := by
    rw [Int.even_iff, Int.odd_iff]
    omega
  by_cases hb : (Even m3 ∧ j1 = j2) ∨ (Odd m3 ∧ j2 = j1 + 1)
  · rw [if_neg (fun hc => (hiff.mp hc) hb), if_pos hb]
  · rw [if_pos (hiff.mpr hb), if_neg hb]

/-- C1 (code bug): at `(j1,m1) = (1,1)`, `(j2,m2) = (0,0)`, `(j3,m3) = (1,1)`
the code returns `-1`, while the claimed (and documented,
`(-1)^(j1-j2+m3) = (-1)^2 = +1`) formula
`sqrt(2*j3+1) * (+1) * three_j((1,1),(0,0),(1,-1))` equals `+1`: the Python
expression `(-1 if j1-j2+m3 % 2 else 1)` parses as `j1 - j2 + (m3 % 2)` and is
truthy here (value 2), flipping the sign. -/
theorem clebsch_gordan_phase_bug :
    clebsch_gordan (1, 1) (0, 0) (1, 1) = -1 ∧
    Real.sqrt ((2 * 1 + 1 : ℤ) : ℝ) * three_j_symbol (1, 1) (0, 0) (1, -1) = 1 := by
  constructor
  · simp only [clebsch_gordan]
    rw [if_pos (by decide)]
    rw [three_j_symbol_at_110011m1]
    norm_num
  · rw [three_j_symbol_at_110011m1]
    norm_num

/-- C2 (counterexample): calling `U_matrix_slater` with the unknown basis
name `"banana"` (and valid radial integrals) raises nothing and returns a
tensor — the source checks only for `"cubic"` and `"other"` and has no
unknown-basis validation. -/
theorem U_matrix_slater_unknown_basis_no_error :
    ∃ Um, U_matrix_slater 1 (some [1, 1]) none none "banana" none = .ok Um :=
  ⟨_, rfl⟩

/-- C2 (amended): a basis name outside `spherical`, `cubic`, `other` is not
rejected; the call behaves exactly as with `basis = "spherical"` (the
untransformed tensor when `T` is absent, the `T`-transformed one when `T` is
given). -/
theorem U_matrix_slater_unknown_basis_acts_as_spherical (l : ℤ)
    (rad : Option (List ℝ)) (U_int J_hund : Option ℝ) (basis : String)
    (T : Option CMat2)
    (h : ¬ (basis = "spherical" ∨ basis = "cubic" ∨ basis = "other")) :
    U_matrix_slater l rad U_int J_hund basis T =
      U_matrix_slater l rad U_int J_hund "spherical" T := by
  push_neg at h
  obtain ⟨-, h2, h3⟩ := h
  unfold U_matrix_slater
  cases U_matrix_slater_radial l rad U_int J_hund with
  | error e => rfl
  | ok F =>
    simp only [if_neg h2, if_neg h3,
      if_neg (show ("spherical" : String) ≠ "cubic" by decide),
      if_neg (show ("spherical" : String) ≠ "other" by decide)]

/-- Witness for the amended C2 at the concrete basis name `"banana"`. -/
theorem U_matrix_slater_unknown_basis_acts_as_spherical_witness :
    U_matrix_slater 1 (some [1, 1]) none none "banana" none =
      U_matrix_slater 1 (some [1, 1]) none none "spherical" none :=
  U_matrix_slater_unknown_basis_acts_as_spherical 1 (some [1, 1]) none none
    "banana" none (by decide)

/-- C3 (counterexample): with `radial_integrals = None`, `U_int` given and
`J_hund = None`, the call fails — but with the `TypeError` from iterating
`None` (line 101), not the missing-input `ValueError`: the validation at line
85 tests `U_int is None AND J_hund is None`, so a single missing parameter
slips past it. -/
theorem U_matrix_slater_one_missing_is_typeerror :
    U_matrix_slater 2 none (some (4 : ℝ)) none "spherical" none =
      .error (.typeError "NoneType object is not iterable") ∧
    PyErr.typeError "NoneType object is not iterable" ≠
      PyErr.valueError "U_matrix: provide either the radial_integrals or U_int and J_hund." :=
  ⟨rfl, by decide⟩

/-- C3 (amended): with `radial_integrals = None` and at least one of `U_int`,
`J_hund` missing, no tensor is ever produced: both missing gives the
missing-input `ValueError`, exactly one missing gives the `TypeError` raised
when the loop iterates over the still-`None` radial integrals. -/
theorem U_matrix_slater_missing_inputs (l : ℤ) (U_int J_hund : Option ℝ)
    (basis : String) (T : Option CMat2)
    (h : U_int.isNone = true ∨ J_hund.isNone = true) :
    U_matrix_slater l none U_int J_hund basis T =
      .error (if U_int.isNone && J_hund.isNone then
          PyErr.valueError "U_matrix: provide either the radial_integrals or U_int and J_hund."
        else PyErr.typeError "NoneType object is not iterable") := by
  unfold U_matrix_slater U_matrix_slater_radial
  cases U_int <;> cases J_hund <;> simp_all

/-- Witness for the amended C3 at `U_int = 4`, `J_hund = None`. -/
theorem U_matrix_slater_missing_inputs_witness :
    U_matrix_slater 2 none (some (4 : ℝ)) none "spherical" none =
      .error (if (some (4 : ℝ)).isNone && (none : Option ℝ).isNone then
          PyErr.valueError "U_matrix: provide either the radial_integrals or U_int and J_hund."
        else PyErr.typeError "NoneType object is not iterable") :=
  U_matrix_slater_missing_inputs 2 (some 4) none "spherical" none (Or.inr rfl)

end UMatrix

